import Mathlib

/-!
Shallow embedding of the InvestoTrack portfolio tracker core:
the portfolio metrics engine (`src/lib/portfolioUtils.ts`), the
target-allocation step of CSV ingestion (`src/lib/csvParser.ts`), and the
quote resolver (`src/ai/flows/fetch-stock-prices-flow.ts`, two source
variants, called V1 and V2 below).

Modelling conventions:
* JavaScript `number` is embedded as `ℚ` (the code performs only field
  arithmetic; NaN guards are unreachable over `ℚ` and noted where dropped).
* `T | undefined` is embedded as `Option T`.
* JavaScript truthiness on an optional number (`x && ...`) is `x ≠ 0` on a
  present value and false on `undefined`; on an optional string it is
  `s ≠ ""` on a present value and false on `undefined`.
* A `fetch` that may throw is embedded as `Except Unit` -valued; the
  `try`/`catch` blocks of the source become matches on the `Except`.
-/

namespace InvestoTrack

/-- Rounding policies from `src/types/portfolio.ts`:
`type RoundingOption = 'up' | 'down' | 'classic'`. -/
inductive RoundingOption where
  | up
  | down
  | classic
deriving Repr, DecidableEq

/-- Translation of `roundQuantity` (src/lib/portfolioUtils.ts).
`Math.ceil` is `⌈·⌉`, `Math.floor` is `⌊·⌋`, and JavaScript `Math.round v`
is `⌊v + 1/2⌋` (half-up, i.e. ties toward positive infinity). The switch's
`default` branch also returns `Math.round`, so with the closed enum the
`classic` case covers it. The `isNaN` guard has no counterpart over `ℚ`. -/
def roundQuantity (value : ℚ) (opt : RoundingOption) : ℤ :=
  match opt with
  | .up => ⌈value⌉
  | .down => ⌊value⌋
  | .classic => ⌊value + 1 / 2⌋

/-- The holding record (`PortfolioHolding` in `src/types/portfolio.ts`),
restricted to the fields read or written by the embedded functions plus the
static CSV-sourced fields. Display-only market-detail fields are omitted. -/
structure PortfolioHolding where
  id : String
  isin : String
  name : String
  quantity : ℚ
  currentPrice : Option ℚ
  currentAmount : Option ℚ
  objective : String
  type : String
  potentialIncome : String
  allocationPercentage : Option ℚ
  targetBuyAmount : ℚ
  buyPrice : Option ℚ
  qtyToBuy : Option ℚ
  actualGrosAmount : Option ℚ
  distributes : Option String
  targetAllocationPercentage : Option ℚ
  newInvestmentAllocation : Option ℚ
  quantityToBuyFromNewInvestment : Option ℤ
deriving Repr, DecidableEq

/-- Translation of the local `totalPortfolioValue` of `calculatePortfolioMetrics`
(src/lib/portfolioUtils.ts):
`holdings.reduce((sum, h) => sum + (h.currentAmount || 0), 0)`.
Over `ℚ`, `v || 0` equals `v` (a present `0` is falsy but `0 || 0 = 0`),
so the truthiness coalescing is exactly `Option.getD 0`. -/
def totalPortfolioValue (holdings : List PortfolioHolding) : ℚ :=
  holdings.foldl (fun sum h => sum + h.currentAmount.getD 0) 0

/-- Translation of the new-investment block inside the `holdings.map` body of
`calculatePortfolioMetrics` (src/lib/portfolioUtils.ts): the pair of the
mutable locals `newInvestmentAllocation` and `quantityToBuyFromNewInvestment`,
both initially `undefined`. The guards `x && x > 0` on optional numbers are
rendered by matching on the `Option` and testing `x ≠ 0 ∧ 0 < x`;
`roundingOption` (truthy iff supplied, as it is a union of non-empty string
literals) is rendered by matching. -/
def codeDerived (newInvestmentAmountTotal : Option ℚ)
    (roundingOption : Option RoundingOption) (holding : PortfolioHolding) :
    Option ℚ × Option ℤ :=
  match newInvestmentAmountTotal, holding.targetAllocationPercentage with
  | some nit, some tap =>
      if nit ≠ 0 ∧ 0 < nit ∧ tap ≠ 0 ∧ 0 < tap then
        let newInvestmentAllocation := nit * (tap / 100)
        match holding.currentPrice, roundingOption with
        | some price, some opt =>
            if price ≠ 0 ∧ 0 < price ∧ 0 < newInvestmentAllocation then
              (some newInvestmentAllocation,
                some (roundQuantity (newInvestmentAllocation / price) opt))
            else (some newInvestmentAllocation, none)
        | _, _ => (some newInvestmentAllocation, none)
      else (none, none)
  | _, _ => (none, none)

/-- Translation of the body of the arrow function passed to `holdings.map`
inside `calculatePortfolioMetrics` (src/lib/portfolioUtils.ts): the
allocation-percentage branch, the new-investment block (`codeDerived`), and
the final object spread overriding exactly the three derived fields. -/
def computeHoldingMetrics (totalValue : ℚ)
    (newInvestmentAmountTotal : Option ℚ) (roundingOption : Option RoundingOption)
    (holding : PortfolioHolding) : PortfolioHolding :=
  let allocationPercentage : Option ℚ :=
    match holding.currentAmount with
    | none => none
    | some amount =>
        if 0 < totalValue then some (amount / totalValue * 100) else some 0
  let derived : Option ℚ × Option ℤ :=
    codeDerived newInvestmentAmountTotal roundingOption holding
  { holding with
    allocationPercentage := allocationPercentage,
    newInvestmentAllocation := derived.1,
    quantityToBuyFromNewInvestment := derived.2 }

/-- Translation of `calculatePortfolioMetrics` (src/lib/portfolioUtils.ts). -/
def calculatePortfolioMetrics (holdings : List PortfolioHolding)
    (newInvestmentAmountTotal : Option ℚ) (roundingOption : Option RoundingOption) :
    List PortfolioHolding :=
  holdings.map
    (computeHoldingMetrics (totalPortfolioValue holdings) newInvestmentAmountTotal roundingOption)

/-- Translation of the `totalTargetBuyAmount` reduce at the end of
`parsePortfolioCSV` (src/lib/csvParser.ts, target-allocation step). -/
def totalTargetBuyAmount (holdings : List PortfolioHolding) : ℚ :=
  holdings.foldl (fun sum h => sum + h.targetBuyAmount) 0

/-- Translation of the guarded `forEach` that follows: when the total is
positive every holding's `targetAllocationPercentage` is written; otherwise
the list is left unchanged (the in-place mutation is rendered as a map). -/
def applyTargetAllocations (holdings : List PortfolioHolding) : List PortfolioHolding :=
  if 0 < totalTargetBuyAmount holdings then
    holdings.map (fun h =>
      { h with
        targetAllocationPercentage :=
          some (h.targetBuyAmount / totalTargetBuyAmount holdings * 100) })
  else holdings

/-! Quote resolver embedding (src/ai/flows/fetch-stock-prices-flow.ts).
The file contains rewritten variants of the same flow; V1 below is the first
variant (its `getPriceForIsin` spans lines 40-158) and V2 the second (its
`getPriceForIsin` spans lines 227-381, with the final fallback at 344-381). -/

/-- JavaScript truthiness of an optional number: `undefined` and `0` are falsy. -/
def numTruthy : Option ℚ → Bool
  | some v => v != 0
  | none => false

/-- JavaScript truthiness of an optional string: `undefined` and `""` are falsy. -/
def strTruthy : Option String → Bool
  | some s => s != ""
  | none => false

/-- JavaScript `a || b` on optional strings. -/
def jsOrStr (a b : Option String) : Option String :=
  if strTruthy a then a else b

/-- JavaScript `a || b` on optional numbers. -/
def jsOrNum (a b : Option ℚ) : Option ℚ :=
  if numTruthy a then a else b

/-- JavaScript `a ?? b` (nullish coalescing). -/
def jsNullish (a b : Option ℚ) : Option ℚ :=
  match a with
  | some v => some v
  | none => b

/-- JavaScript `toUpperCase()` on the ASCII strings the flow compares
(currency and exchange codes): uppercase every character. Equals
`String.toUpper` but is structurally recursive, so concrete runs reduce. -/
def jsToUpper (s : String) : String :=
  ⟨s.data.map Char.toUpper⟩

/-- JavaScript `s?.toUpperCase() === t` for an optional string `s` and a string
literal `t` (false when `s` is `undefined`). -/
def optUpperEq (s : Option String) (t : String) : Bool :=
  match s with
  | some v => jsToUpper v == t
  | none => false

/-- The `fundProfile` sub-object of a Yahoo quote, reduced to the raw numeric
leaves the flow reads (`annualReportExpenseRatio.raw`, `totalAssets.raw`,
`categoryName`), each optional at any level, flattened into one `Option`. -/
structure YFundProfile where
  annualReportExpenseRatioRaw : Option ℚ
  totalAssetsRaw : Option ℚ
  categoryName : Option String
deriving Repr, DecidableEq

/-- A quote object returned by `yahooFinance.quote`, restricted to the fields
the flow reads. Every field may be absent. -/
structure YQuote where
  regularMarketPrice : Option ℚ
  currency : Option String
  symbol : Option String
  exchange : Option String
  regularMarketChange : Option ℚ
  regularMarketChangePercent : Option ℚ
  regularMarketVolume : Option ℚ
  averageDailyVolume10Day : Option ℚ
  averageDailyVolume3Month : Option ℚ
  marketCap : Option ℚ
  trailingPE : Option ℚ
  epsTrailingTwelveMonths : Option ℚ
  fiftyTwoWeekLow : Option ℚ
  fiftyTwoWeekHigh : Option ℚ
  fundProfile : Option YFundProfile
  summaryDetailTotalAssetsRaw : Option ℚ
  summaryProfileTotalAssetsRaw : Option ℚ
deriving Repr, DecidableEq

/-- A `YQuote` with every field absent, for building concrete quotes. -/
def YQuote.null : YQuote :=
  ⟨none, none, none, none, none, none, none, none, none, none, none, none, none,
    none, none, none, none⟩

/-- A candidate from `yahooFinance.search(...).quotes`, restricted to the
fields the flow reads. -/
structure SearchQuote where
  isin : Option String
  symbol : Option String
  currency : Option String
  exchange : Option String
  regularMarketPrice : Option ℚ
deriving Repr, DecidableEq

/-- The external Yahoo Finance boundary. `quote` and `search` either throw
(`Except.error`) or return a possibly-absent payload; for `search` the payload
is the `quotes` array, itself possibly absent. -/
structure Provider where
  quote : String → Except Unit (Option YQuote)
  search : String → Except Unit (Option (List SearchQuote))

/-- The constant `euronextExchangeCodes` of `getPriceForIsin`
(Paris, Amsterdam, Brussels, Lisbon, Dublin, Madrid, Oslo). -/
def euronextExchangeCodes : List String :=
  ["PAR", "AMS", "BRU", "LIS", "DUB", "MCE", "OSL"]

/-- Translation of the first `find` predicate of the `bestMatch` selection:
exact ISIN match, `EUR` currency, and a Euronext exchange code. -/
def searchPriority1 (isin : String) (q : SearchQuote) : Bool :=
  q.isin == some isin && optUpperEq q.currency "EUR" &&
    euronextExchangeCodes.any (fun exCode => optUpperEq q.exchange exCode)

/-- Translation of the six-step `bestMatch` selection inside Attempt 2 of
`getPriceForIsin` (identical in both variants): a chain of `find` calls tried
in order, each only when all earlier ones found nothing.
`q.isin === isin` on an optional `q.isin` is `q.isin == some isin`;
priorities 2 and 4 share one predicate in the source as well. -/
def bestMatchChain (qs : List SearchQuote) (isin : String)
    (preferredTicker : Option String) : Option SearchQuote :=
  let m1 := qs.find? (searchPriority1 isin)
  let m2 :=
    match m1 with
    | some _ => m1
    | none => qs.find? (fun q => q.isin == some isin && optUpperEq q.currency "EUR")
  let m3 :=
    match m2, preferredTicker with
    | none, some pt =>
        if pt != "" then
          qs.find? (fun q =>
            q.symbol == some pt && q.isin == some isin && optUpperEq q.currency "EUR")
        else none
    | _, _ => m2
  let m4 :=
    match m3 with
    | some _ => m3
    | none => qs.find? (fun q => q.isin == some isin && optUpperEq q.currency "EUR")
  let m5 :=
    match m4 with
    | some _ => m4
    | none => qs.find? (fun q =>
        q.isin == some isin && numTruthy q.regularMarketPrice && strTruthy q.currency)
  match m5 with
  | some _ => m5
  | none =>
      if strTruthy preferredTicker then none
      else qs.find? (fun q => q.isin == some isin)

namespace V1

/-- The flow's output record for one holding (`StockPriceDataSchema`,
first variant). -/
structure StockPriceData where
  id : String
  isin : String
  currentPrice : Option ℚ
  currency : Option String
  symbol : Option String
  exchange : Option String
  regularMarketChange : Option ℚ
  regularMarketChangePercent : Option ℚ
deriving Repr, DecidableEq

/-- Translation of the accepted-quote return object of Attempt 0 (first
variant, lines 50-59): `symbol` is `quote.symbol || preferredTicker`. -/
def extractPreferred (id isin preferredTicker : String) (q : YQuote) : StockPriceData :=
  { id := id
    isin := isin
    currentPrice := q.regularMarketPrice
    currency := q.currency
    symbol := jsOrStr q.symbol (some preferredTicker)
    exchange := q.exchange
    regularMarketChange := q.regularMarketChange
    regularMarketChangePercent := q.regularMarketChangePercent }

/-- Translation of the accepted-quote return objects of Attempts 1 and 2
(first variant, lines 73-82 and 132-141): `symbol` is `quote.symbol`. -/
def extractDirect (id isin : String) (q : YQuote) : StockPriceData :=
  { id := id
    isin := isin
    currentPrice := q.regularMarketPrice
    currency := q.currency
    symbol := q.symbol
    exchange := q.exchange
    regularMarketChange := q.regularMarketChange
    regularMarketChangePercent := q.regularMarketChangePercent }

/-- Translation of the final no-EUR-price return (first variant, lines
150-157): `currentPrice`/`currency` are omitted, `symbol` is
`preferredTicker || quote?.symbol`, the rest comes from the last fetched
quote. -/
def finalReturn (id isin : String) (preferredTicker : Option String)
    (quote : Option YQuote) : StockPriceData :=
  { id := id
    isin := isin
    currentPrice := none
    currency := none
    symbol := jsOrStr preferredTicker (quote.bind YQuote.symbol)
    exchange := quote.bind YQuote.exchange
    regularMarketChange := quote.bind YQuote.regularMarketChange
    regularMarketChangePercent := quote.bind YQuote.regularMarketChangePercent }

/-- Translation of Attempt 0 of `getPriceForIsin` (first variant, lines
44-67). Returns `Except.error` for the early `return`, otherwise the value of
the mutable local `quote` after the attempt (the fetch assigns it even when no
early return happens; a thrown fetch leaves it unassigned). -/
def attempt0 (env : Provider) (id isin : String) (preferredTicker : Option String) :
    Except StockPriceData (Option YQuote) :=
  match preferredTicker with
  | some pt =>
      if pt != "" then
        match env.quote pt with
        | .error _ => .ok none
        | .ok fetched =>
            match fetched with
            | some q =>
                if numTruthy q.regularMarketPrice && strTruthy q.currency then
                  if optUpperEq q.currency "EUR" then
                    .error (extractPreferred id isin pt q)
                  else .ok (some q)
                else .ok (some q)
            | none => .ok none
      else .ok none
  | none => .ok none

/-- Translation of Attempt 1 of `getPriceForIsin` (first variant, lines
69-86): fetch the ISIN as a symbol, accept on truthy price, truthy currency
and `EUR`; the fetch reassigns the mutable `quote` unless it throws. -/
def attempt1 (env : Provider) (id isin : String) (quote0 : Option YQuote) :
    Except StockPriceData (Option YQuote) :=
  match env.quote isin with
  | .error _ => .ok quote0
  | .ok fetched =>
      match fetched with
      | some q =>
          if numTruthy q.regularMarketPrice && strTruthy q.currency &&
              optUpperEq q.currency "EUR" then
            .error (extractDirect id isin q)
          else .ok (some q)
      | none => .ok none

/-- Translation of Attempt 2 of `getPriceForIsin` (first variant, lines
88-147): search the ISIN, pick `bestMatch` by the priority chain, refetch its
symbol, and accept on truthy price and truthy currency (this refetch acceptance
performs no `EUR` re-check in the first variant; the comment there reads
`We trust this quote now as it came from a prioritized search for EUR`).
A throw anywhere in the `try` leaves the mutable `quote` at its prior value. -/
def attempt2 (env : Provider) (id isin : String) (preferredTicker : Option String)
    (quote1 : Option YQuote) : Except StockPriceData (Option YQuote) :=
  match env.search isin with
  | .error _ => .ok quote1
  | .ok searchQuotes =>
      match searchQuotes with
      | some qs =>
          if 0 < qs.length then
            match bestMatchChain qs isin preferredTicker with
            | some bm =>
                match bm.symbol with
                | some bs =>
                    if bs != "" then
                      match env.quote bs with
                      | .error _ => .ok quote1
                      | .ok fetched =>
                          match fetched with
                          | some q =>
                              if numTruthy q.regularMarketPrice && strTruthy q.currency then
                                .error (extractDirect id isin q)
                              else .ok (some q)
                          | none => .ok none
                    else .ok quote1
                | none => .ok quote1
            | none => .ok quote1
          else .ok quote1
      | none => .ok quote1

/-- Translation of `getPriceForIsin` (first variant, lines 40-158): the three
attempts in order, each able to return early, otherwise the final
no-EUR-price result built from the last fetched quote. -/
def getPriceForIsin (env : Provider) (isin id : String)
    (preferredTicker : Option String) : StockPriceData :=
  match attempt0 env id isin preferredTicker with
  | .error ret => ret
  | .ok quote0 =>
      match attempt1 env id isin quote0 with
      | .error ret => ret
      | .ok quote1 =>
          match attempt2 env id isin preferredTicker quote1 with
          | .error ret => ret
          | .ok quoteFinal => finalReturn id isin preferredTicker quoteFinal

end V1

/-- JavaScript `!quote || quote.currency?.toUpperCase() !== 'EUR'` on the
mutable retained quote (second variant, lines 281 and 331). -/
def quoteNotEUR : Option YQuote → Bool
  | none => true
  | some q => !(optUpperEq q.currency "EUR")

namespace V2

/-- The flow's output record for one holding (`StockPriceDataSchema`,
second variant, with the descriptive market fields). -/
structure StockPriceData where
  id : String
  isin : String
  currentPrice : Option ℚ
  currency : Option String
  symbol : Option String
  exchange : Option String
  regularMarketChange : Option ℚ
  regularMarketChangePercent : Option ℚ
  regularMarketVolume : Option ℚ
  averageDailyVolume10Day : Option ℚ
  marketCap : Option ℚ
  trailingPE : Option ℚ
  epsTrailingTwelveMonths : Option ℚ
  fiftyTwoWeekLow : Option ℚ
  fiftyTwoWeekHigh : Option ℚ
  ter : Option ℚ
  fundSize : Option ℚ
  categoryName : Option String
deriving Repr, DecidableEq

/-- Translation of the local `extractQuoteData` closure (second variant,
lines 231-250), used for every accepted quote. -/
def extractQuoteData (id isin : String) (preferredTicker : Option String)
    (q : YQuote) : StockPriceData :=
  { id := id
    isin := isin
    currentPrice := q.regularMarketPrice
    currency := q.currency
    symbol := jsOrStr q.symbol preferredTicker
    exchange := q.exchange
    regularMarketChange := q.regularMarketChange
    regularMarketChangePercent := q.regularMarketChangePercent
    regularMarketVolume := q.regularMarketVolume
    averageDailyVolume10Day := jsOrNum q.averageDailyVolume10Day q.averageDailyVolume3Month
    marketCap := q.marketCap
    trailingPE := q.trailingPE
    epsTrailingTwelveMonths := q.epsTrailingTwelveMonths
    fiftyTwoWeekLow := q.fiftyTwoWeekLow
    fiftyTwoWeekHigh := q.fiftyTwoWeekHigh
    ter := q.fundProfile.bind YFundProfile.annualReportExpenseRatioRaw
    fundSize := jsNullish (q.fundProfile.bind YFundProfile.totalAssetsRaw)
      (jsNullish q.summaryDetailTotalAssetsRaw q.summaryProfileTotalAssetsRaw)
    categoryName := q.fundProfile.bind YFundProfile.categoryName }

/-- Translation of the final fallback of `getPriceForIsin` (second variant,
lines 344-381): take price/currency/symbol from the retained quote, discard
the price and currency when the price is present and the currency is truthy
but not `EUR`, and populate the descriptive fields from the retained quote
regardless. -/
def finalize (id isin : String) (preferredTicker : Option String)
    (quote : Option YQuote) : StockPriceData :=
  let finalPrice0 := quote.bind YQuote.regularMarketPrice
  let finalCurrency0 := quote.bind YQuote.currency
  let finalSymbol := jsOrStr (quote.bind YQuote.symbol) preferredTicker
  let discard := finalPrice0.isSome && strTruthy finalCurrency0 &&
    !(optUpperEq finalCurrency0 "EUR")
  let finalPrice := if discard then none else finalPrice0
  let finalCurrency := if discard then none else finalCurrency0
  { id := id
    isin := isin
    currentPrice := finalPrice
    currency := finalCurrency
    symbol := finalSymbol
    exchange := quote.bind YQuote.exchange
    regularMarketChange :=
      if finalPrice.isSome then quote.bind YQuote.regularMarketChange else none
    regularMarketChangePercent :=
      if finalPrice.isSome then quote.bind YQuote.regularMarketChangePercent else none
    regularMarketVolume := quote.bind YQuote.regularMarketVolume
    averageDailyVolume10Day := jsOrNum (quote.bind YQuote.averageDailyVolume10Day)
      (quote.bind YQuote.averageDailyVolume3Month)
    marketCap := quote.bind YQuote.marketCap
    trailingPE := quote.bind YQuote.trailingPE
    epsTrailingTwelveMonths := quote.bind YQuote.epsTrailingTwelveMonths
    fiftyTwoWeekLow := quote.bind YQuote.fiftyTwoWeekLow
    fiftyTwoWeekHigh := quote.bind YQuote.fiftyTwoWeekHigh
    ter := quote.bind (fun q => q.fundProfile.bind YFundProfile.annualReportExpenseRatioRaw)
    fundSize := jsNullish (quote.bind (fun q => q.fundProfile.bind YFundProfile.totalAssetsRaw))
      (jsNullish (quote.bind YQuote.summaryDetailTotalAssetsRaw)
        (quote.bind YQuote.summaryProfileTotalAssetsRaw))
    categoryName := quote.bind (fun q => q.fundProfile.bind YFundProfile.categoryName) }

/-- Translation of Attempt 0 of `getPriceForIsin` (second variant, lines
253-272). Acceptance requires `regularMarketPrice !== undefined` (a present
zero passes) and a truthy currency equal to `EUR`; a present but unaccepted
quote is stored in the mutable `quote` local, a null fetch stores nothing. -/
def attempt0 (env : Provider) (id isin : String) (preferredTicker : Option String) :
    Except StockPriceData (Option YQuote) :=
  match preferredTicker with
  | some pt =>
      if pt != "" then
        match env.quote pt with
        | .error _ => .ok none
        | .ok fetched =>
            match fetched with
            | some q =>
                if q.regularMarketPrice.isSome && strTruthy q.currency then
                  if optUpperEq q.currency "EUR" then
                    .error (extractQuoteData id isin preferredTicker q)
                  else .ok (some q)
                else .ok (some q)
            | none => .ok none
      else .ok none
  | none => .ok none

/-- Translation of Attempt 1 of `getPriceForIsin` (second variant, lines
274-290). A complete non-EUR quote replaces the retained one only when the
retained one is absent or not EUR-denominated; an incomplete quote replaces
it only when nothing is retained. -/
def attempt1 (env : Provider) (id isin : String) (preferredTicker : Option String)
    (quote0 : Option YQuote) : Except StockPriceData (Option YQuote) :=
  match env.quote isin with
  | .error _ => .ok quote0
  | .ok fetched =>
      match fetched with
      | some q =>
          if q.regularMarketPrice.isSome && strTruthy q.currency then
            if optUpperEq q.currency "EUR" then
              .error (extractQuoteData id isin preferredTicker q)
            else if quoteNotEUR quote0 then .ok (some q)
            else .ok quote0
          else if quote0.isNone then .ok (some q)
          else .ok quote0
      | none => .ok quote0

/-- Translation of Attempt 2 of `getPriceForIsin` (second variant, lines
292-342): search the ISIN, pick `bestMatch` by the shared priority chain,
refetch its symbol, and apply the same accept/retain rule as Attempt 1
(this variant re-checks `EUR` on the refetched quote). -/
def attempt2 (env : Provider) (id isin : String) (preferredTicker : Option String)
    (quote1 : Option YQuote) : Except StockPriceData (Option YQuote) :=
  match env.search isin with
  | .error _ => .ok quote1
  | .ok searchQuotes =>
      match searchQuotes with
      | some qs =>
          if 0 < qs.length then
            match bestMatchChain qs isin preferredTicker with
            | some bm =>
                match bm.symbol with
                | some bs =>
                    if bs != "" then
                      match env.quote bs with
                      | .error _ => .ok quote1
                      | .ok fetched =>
                          match fetched with
                          | some q =>
                              if q.regularMarketPrice.isSome && strTruthy q.currency then
                                if optUpperEq q.currency "EUR" then
                                  .error (extractQuoteData id isin preferredTicker q)
                                else if quoteNotEUR quote1 then .ok (some q)
                                else .ok quote1
                              else if quote1.isNone then .ok (some q)
                              else .ok quote1
                          | none => .ok quote1
                    else .ok quote1
                | none => .ok quote1
            | none => .ok quote1
          else .ok quote1
      | none => .ok quote1

/-- Translation of `getPriceForIsin` (second variant, lines 227-381): the
three attempts in order, each able to return an accepted EUR quote early,
otherwise the final fallback on the retained quote. -/
def getPriceForIsin (env : Provider) (isin id : String)
    (preferredTicker : Option String) : StockPriceData :=
  match attempt0 env id isin preferredTicker with
  | .error ret => ret
  | .ok quote0 =>
      match attempt1 env id isin preferredTicker quote0 with
      | .error ret => ret
      | .ok quote1 =>
          match attempt2 env id isin preferredTicker quote1 with
          | .error ret => ret
          | .ok quoteFinal => finalize id isin preferredTicker quoteFinal

end V2

/-! Helper lemmas shared by the claim theorems. -/

lemma foldl_add_eq_sum (f : PortfolioHolding → ℚ) :
    ∀ (hs : List PortfolioHolding) (a : ℚ),
      hs.foldl (fun sum h => sum + f h) a = a + (hs.map f).sum := by
  intro hs
  induction hs with
  | nil => intro a; simp
  | cons h t ih => intro a; simp [ih]; ring

lemma totalPortfolioValue_eq_sum (hs : List PortfolioHolding) :
    totalPortfolioValue hs = (hs.map (fun h => h.currentAmount.getD 0)).sum := by
  simpa using foldl_add_eq_sum (fun h => h.currentAmount.getD 0) hs 0

lemma sum_div_mul_holdings (T : ℚ) (f : PortfolioHolding → ℚ) :
    ∀ hs : List PortfolioHolding,
      (hs.map (fun h => f h / T * 100)).sum = (hs.map f).sum / T * 100 := by
  intro hs
  induction hs with
  | nil => simp
  | cons h t ih => simp [ih]; ring

/-- The new-investment pair computed by the source, restated the way the spec
describes it: positivity guards instead of truthiness-plus-positivity, the
allocation written `total * target / 100`, and the redundant
`newInvestmentAllocation > 0` guard dropped (it follows from the other two). -/
lemma codeDerived_spec (n : Option ℚ) (r : Option RoundingOption) (h : PortfolioHolding) :
    codeDerived n r h =
    match n, h.targetAllocationPercentage with
    | some nit, some tap =>
        if 0 < nit ∧ 0 < tap then
          (some (nit * tap / 100),
            match h.currentPrice, r with
            | some price, some opt =>
                if 0 < price then some (roundQuantity (nit * tap / 100 / price) opt)
                else none
            | _, _ => none)
        else (none, none)
    | _, _ => (none, none) := by
  unfold codeDerived
  cases n with
  | none => rfl
  | some nit =>
      cases htap : h.targetAllocationPercentage with
      | none => rfl
      | some tap =>
          simp only []
          by_cases hnit : 0 < nit
          · by_cases htp : 0 < tap
            · have hcond : nit ≠ 0 ∧ 0 < nit ∧ tap ≠ 0 ∧ 0 < tap :=
                ⟨hnit.ne', hnit, htp.ne', htp⟩
              have halloc : nit * (tap / 100) = nit * tap / 100 := by ring
              rw [if_pos hcond, if_pos ⟨hnit, htp⟩]
              cases h.currentPrice with
              | none => simp [halloc]
              | some price =>
                  cases r with
                  | none => simp [halloc]
                  | some opt =>
                      simp only [halloc]
                      by_cases hp : 0 < price
                      · have h1 : price ≠ 0 ∧ 0 < price ∧ 0 < nit * tap / 100 :=
                          ⟨hp.ne', hp, by positivity⟩
                        rw [if_pos h1, if_pos hp]
                      · have h1 : ¬(price ≠ 0 ∧ 0 < price ∧ 0 < nit * tap / 100) := by
                          rintro ⟨-, hc, -⟩; exact hp hc
                        rw [if_neg h1, if_neg hp]
            · have hno : ¬(nit ≠ 0 ∧ 0 < nit ∧ tap ≠ 0 ∧ 0 < tap) := by
                rintro ⟨-, -, -, hc⟩; exact htp hc
              have hno2 : ¬(0 < nit ∧ 0 < tap) := by rintro ⟨-, hc⟩; exact htp hc
              rw [if_neg hno, if_neg hno2]
          · have hno : ¬(nit ≠ 0 ∧ 0 < nit ∧ tap ≠ 0 ∧ 0 < tap) := by
              rintro ⟨-, hc, -, -⟩; exact hnit hc
            have hno2 : ¬(0 < nit ∧ 0 < tap) := by rintro ⟨hc, -⟩; exact hnit hc
            rw [if_neg hno, if_neg hno2]

lemma total_after_metrics (hs : List PortfolioHolding) (n : Option ℚ)
    (r : Option RoundingOption) :
    totalPortfolioValue (calculatePortfolioMetrics hs n r) = totalPortfolioValue hs := by
  rw [totalPortfolioValue_eq_sum, totalPortfolioValue_eq_sum]
  unfold calculatePortfolioMetrics
  rw [List.map_map]
  rfl

lemma v1_attempt0_error {env : Provider} {id isin : String} {pt : Option String}
    {ret : V1.StockPriceData} (h : V1.attempt0 env id isin pt = .error ret) :
    ret.id = id ∧ ret.isin = isin := by
  unfold V1.attempt0 at h
  repeat' split at h
  all_goals cases h
  all_goals exact ⟨rfl, rfl⟩

lemma v1_attempt1_error {env : Provider} {id isin : String} {q0 : Option YQuote}
    {ret : V1.StockPriceData} (h : V1.attempt1 env id isin q0 = .error ret) :
    ret.id = id ∧ ret.isin = isin := by
  unfold V1.attempt1 at h
  repeat' split at h
  all_goals cases h
  all_goals exact ⟨rfl, rfl⟩

lemma v1_attempt2_error {env : Provider} {id isin : String} {pt : Option String}
    {q1 : Option YQuote} {ret : V1.StockPriceData}
    (h : V1.attempt2 env id isin pt q1 = .error ret) :
    ret.id = id ∧ ret.isin = isin := by
  unfold V1.attempt2 at h
  repeat' split at h
  all_goals cases h
  all_goals exact ⟨rfl, rfl⟩

lemma v2_attempt0_gate {env : Provider} {id isin : String} {pt : Option String}
    {ret : V2.StockPriceData} (h : V2.attempt0 env id isin pt = .error ret) :
    ∀ c, ret.currency = some c → jsToUpper c = "EUR" := by
  unfold V2.attempt0 at h
  repeat' split at h
  all_goals cases h
  all_goals
    rename_i heur
    intro c hc
    rename_i q _ _
    have hcq : q.currency = some c := hc
    rw [hcq] at heur
    simpa [optUpperEq] using heur

lemma v2_attempt1_gate {env : Provider} {id isin : String} {pt : Option String}
    {q0 : Option YQuote} {ret : V2.StockPriceData}
    (h : V2.attempt1 env id isin pt q0 = .error ret) :
    ∀ c, ret.currency = some c → jsToUpper c = "EUR" := by
  unfold V2.attempt1 at h
  repeat' split at h
  all_goals cases h
  all_goals
    rename_i heur
    intro c hc
    rename_i q _ _
    have hcq : q.currency = some c := hc
    rw [hcq] at heur
    simpa [optUpperEq] using heur

lemma v2_attempt2_gate {env : Provider} {id isin : String} {pt : Option String}
    {q1 : Option YQuote} {ret : V2.StockPriceData}
    (h : V2.attempt2 env id isin pt q1 = .error ret) :
    ∀ c, ret.currency = some c → jsToUpper c = "EUR" := by
  unfold V2.attempt2 at h
  repeat' split at h
  all_goals cases h
  all_goals
    rename_i heur
    intro c hc
    rename_i q _ _
    have hcq : q.currency = some c := hc
    rw [hcq] at heur
    simpa [optUpperEq] using heur

lemma v2_finalize_gate {id isin : String} {pt : Option String} {quote : Option YQuote}
    (hp : (V2.finalize id isin pt quote).currentPrice.isSome = true) :
    ∀ c, (V2.finalize id isin pt quote).currency = some c → c ≠ "" →
      jsToUpper c = "EUR" := by
  intro c hc hne
  unfold V2.finalize at hp hc
  simp only [] at hp hc
  by_cases hd : ((quote.bind YQuote.regularMarketPrice).isSome &&
      strTruthy (quote.bind YQuote.currency) &&
      !(optUpperEq (quote.bind YQuote.currency) "EUR")) = true
  · rw [if_pos hd] at hc
    cases hc
  · rw [if_neg hd] at hc hp
    rw [hc] at hd
    have hps : (quote.bind YQuote.regularMarketPrice).isSome = true := hp
    have hst : strTruthy (some c) = true := by
      simp [strTruthy, hne]
    simp [hps, hst, optUpperEq] at hd
    exact hd

/-! Concrete fixtures used by witnesses, counterexamples and scenarios. -/

/-- A holding with every optional field absent and neutral static fields, the
state a freshly parsed CSV row is in before any metrics run. -/
def blankHolding : PortfolioHolding :=
  { id := "", isin := "", name := "", quantity := 0, currentPrice := none,
    currentAmount := none, objective := "", type := "ETF", potentialIncome := "",
    allocationPercentage := none, targetBuyAmount := 0, buyPrice := none,
    qtyToBuy := none, actualGrosAmount := none, distributes := none,
    targetAllocationPercentage := none, newInvestmentAllocation := none,
    quantityToBuyFromNewInvestment := none }

/-- The spec's worked scenario: two holdings with target percentages 50/50 and
prices 10/20. -/
def scenarioHoldings : List PortfolioHolding :=
  [ { blankHolding with
      id := "A"
      isin := "A"
      targetAllocationPercentage := some 50
      currentPrice := some 10 },
    { blankHolding with
      id := "B"
      isin := "B"
      targetAllocationPercentage := some 50
      currentPrice := some 20 } ]

/-- Two holdings with defined current amounts 30 and 70. -/
def c6Holdings : List PortfolioHolding :=
  [ { blankHolding with
      id := "A"
      isin := "A"
      currentAmount := some 30 },
    { blankHolding with
      id := "B"
      isin := "B"
      currentAmount := some 70 } ]

/-- Two holdings with target buy amounts 60 and 40. -/
def c8Holdings : List PortfolioHolding :=
  [ { blankHolding with
      id := "A"
      isin := "A"
      targetBuyAmount := 60 },
    { blankHolding with
      id := "B"
      isin := "B"
      targetBuyAmount := 40 } ]

/-- A provider whose preferred-ticker quote has a price but no currency and
whose other lookups fail. -/
def envLeak : Provider :=
  { quote := fun s =>
      if s = "TCK" then .ok (some { YQuote.null with regularMarketPrice := some 10 })
      else .error ()
    search := fun _ => .error () }

/-- A provider whose preferred-ticker quote is a zero price in EUR. -/
def envZero : Provider :=
  { quote := fun s =>
      if s = "TCK" then
        .ok (some { YQuote.null with regularMarketPrice := some 0, currency := some "EUR" })
      else .error ()
    search := fun _ => .error () }

/-- A provider whose preferred-ticker quote is a positive EUR price. -/
def envEUR : Provider :=
  { quote := fun s =>
      if s = "TCK" then
        .ok (some { YQuote.null with regularMarketPrice := some 10, currency := some "EUR" })
      else .error ()
    search := fun _ => .error () }

/-- The preferred-ticker quote of the C2 scenario: a USD price. -/
def q0C2 : YQuote :=
  { YQuote.null with regularMarketPrice := some 5, currency := some "USD" }

/-- The refetched quote of the C2 scenario: a EUR price on Euronext Paris. -/
def qqC2 : YQuote :=
  { YQuote.null with
    regularMarketPrice := some 42
    currency := some "EUR"
    symbol := some "ABC.PA"
    exchange := some "PAR" }

/-- The search candidate of the C2 scenario: exact ISIN, EUR, Euronext. -/
def candC2 : SearchQuote :=
  { isin := some "IE00TEST0001"
    symbol := some "ABC.PA"
    currency := some "EUR"
    exchange := some "PAR"
    regularMarketPrice := some 42 }

/-- The provider of the C2 scenario: preferred ticker in USD, direct ISIN
lookup throws, search finds the Euronext EUR candidate. -/
def envC2 : Provider :=
  { quote := fun s =>
      if s = "TCK" then .ok (some q0C2)
      else if s = "ABC.PA" then .ok (some qqC2)
      else .error ()
    search := fun s => if s = "IE00TEST0001" then .ok (some [candC2]) else .error () }

/-! Claim theorems. -/

/-- Claim C1, counterexample to the claim as stated. The second-variant
resolver can return a defined `currentPrice` with `currency` left undefined:
when the preferred ticker's quote carries a price but no currency, the final
fallback's discard test (`finalPrice !== undefined && finalCurrency && not
EUR`) is never reached, so the price is kept. It also accepts a zero price in
EUR, since acceptance checks `regularMarketPrice !== undefined`, not
positivity. Both contradict the claim that `currentPrice` is defined only for
an EUR-currency quote and never for a zero price. -/
theorem c1_currency_gate_counterexample :
    (V2.getPriceForIsin envLeak "IE00TEST0001" "H1" (some "TCK")).currentPrice = some 10 ∧
    (V2.getPriceForIsin envLeak "IE00TEST0001" "H1" (some "TCK")).currency = none ∧
    (V2.getPriceForIsin envZero "IE00TEST0001" "H1" (some "TCK")).currentPrice = some 0 ∧
    (V2.getPriceForIsin envZero "IE00TEST0001" "H1" (some "TCK")).currency = some "EUR" := by
  decide

/-- Claim C1 as amended: whenever the second-variant resolver returns a
defined `currentPrice` together with a present, non-empty `currency`, that
currency upper-cases to `EUR`. (A defined price may however be paired with an
absent or empty currency, and a zero EUR price is accepted, as the
counterexample shows.) -/
theorem c1_currency_gate (env : Provider) (isin id : String) (pt : Option String)
    (hp : (V2.getPriceForIsin env isin id pt).currentPrice.isSome = true) :
    ∀ c, (V2.getPriceForIsin env isin id pt).currency = some c → c ≠ "" →
      jsToUpper c = "EUR" := by
  revert hp
  unfold V2.getPriceForIsin
  split
  · rename_i ret h
    intro hp c hc hne
    exact v2_attempt0_gate h c hc
  · rename_i quote0 h0
    split
    · rename_i ret h
      intro hp c hc hne
      exact v2_attempt1_gate h c hc
    · rename_i quote1 h1
      split
      · rename_i ret h
        intro hp c hc hne
        exact v2_attempt2_gate h c hc
      · intro hp c hc hne
        exact v2_finalize_gate hp c hc hne

/-- Claim C1 witness: the amended gate applied to a provider whose preferred
ticker yields a positive EUR quote. -/
theorem c1_currency_gate_witness : jsToUpper "EUR" = "EUR" :=
  c1_currency_gate envEUR "IE00TEST0002" "H2" (some "TCK") (by decide) "EUR"
    (by decide) (by decide)

/-- Claim C2: the first-variant resolver tries preferred ticker, ISIN-as-symbol
and ISIN-search in that order. First conjunct: an accepted (truthy price,
truthy currency, EUR) preferred-ticker quote is returned immediately, whatever
the other provider responses are. Second conjunct: when the preferred ticker
yields a non-EUR price, the direct ISIN lookup yields no acceptable quote, and
the search's first-priority predicate (exact ISIN, EUR, Euronext home
exchange) selects a candidate whose symbol refetches to a quote with truthy
price and currency, the resolver returns that refetched quote's price and
currency, not the preferred ticker's. -/
theorem c2_fallback_chain_order (env : Provider) (isin id pt : String) (q0 : YQuote)
    (hpt : pt ≠ "") (hq0 : env.quote pt = .ok (some q0)) :
    ((numTruthy q0.regularMarketPrice && strTruthy q0.currency &&
        optUpperEq q0.currency "EUR") = true →
      V1.getPriceForIsin env isin id (some pt) = V1.extractPreferred id isin pt q0) ∧
    ((numTruthy q0.regularMarketPrice && strTruthy q0.currency) = true →
      optUpperEq q0.currency "EUR" = false →
      (∀ q, env.quote isin = .ok (some q) →
        (numTruthy q.regularMarketPrice && strTruthy q.currency &&
          optUpperEq q.currency "EUR") = false) →
      ∀ (qs : List SearchQuote) (cand : SearchQuote) (s : String) (qq : YQuote),
        env.search isin = .ok (some qs) →
        qs.find? (searchPriority1 isin) = some cand →
        cand.symbol = some s → s ≠ "" →
        env.quote s = .ok (some qq) →
        (numTruthy qq.regularMarketPrice && strTruthy qq.currency) = true →
        (V1.getPriceForIsin env isin id (some pt)).currentPrice = qq.regularMarketPrice ∧
        (V1.getPriceForIsin env isin id (some pt)).currency = qq.currency) := by
  have hpt' : (pt != "") = true := by simpa [bne_iff_ne] using hpt
  constructor
  · intro hacc
    have h0 : V1.attempt0 env id isin (some pt)
        = .error (V1.extractPreferred id isin pt q0) := by
      unfold V1.attempt0
      rw [Bool.and_eq_true] at hacc
      simp only [hpt', if_true, hq0, hacc.1, hacc.2]
    unfold V1.getPriceForIsin
    rw [h0]
  · intro hacc hneur h1 qs cand s qq hsearch hcand hsym hs hqq hqqacc
    have hs' : (s != "") = true := by simpa [bne_iff_ne] using hs
    have h0 : V1.attempt0 env id isin (some pt) = .ok (some q0) := by
      unfold V1.attempt0
      simp only [hpt', if_true, hq0, hacc, hneur]
      simp
    have hmem := List.mem_of_find?_eq_some hcand
    have hlen : 0 < qs.length := List.length_pos.mpr (List.ne_nil_of_mem hmem)
    have hbm : bestMatchChain qs isin (some pt) = some cand := by
      unfold bestMatchChain
      rw [hcand]
    have h2 : ∀ q1, V1.attempt2 env id isin (some pt) q1
        = .error (V1.extractDirect id isin qq) := by
      intro q1
      unfold V1.attempt2
      simp only [hsearch, if_pos hlen, hbm, hsym, hs', if_true, hqq, hqqacc]
    have h1' : ∃ quote1, V1.attempt1 env id isin (some q0) = .ok quote1 := by
      unfold V1.attempt1
      cases henv : env.quote isin with
      | error e => exact ⟨_, rfl⟩
      | ok fetched =>
          cases fetched with
          | none => exact ⟨_, rfl⟩
          | some q =>
              simp only [h1 q henv]
              simp
    obtain ⟨quote1, hq1⟩ := h1'
    unfold V1.getPriceForIsin
    simp only [h0, hq1, h2]
    exact ⟨rfl, rfl⟩

/-- Claim C2 witness: the fallback chain run on the concrete C2 provider
returns the Euronext EUR quote's price, not the preferred ticker's USD one. -/
theorem c2_fallback_chain_witness :
    (V1.getPriceForIsin envC2 "IE00TEST0001" "H1" (some "TCK")).currentPrice = some 42 ∧
    (V1.getPriceForIsin envC2 "IE00TEST0001" "H1" (some "TCK")).currency = some "EUR" := by
  have h := (c2_fallback_chain_order envC2 "IE00TEST0001" "H1" "TCK" q0C2
      (by decide) rfl).2
    (by decide) (by decide)
    (fun q hq => by
      rw [show envC2.quote "IE00TEST0001" = .error () from rfl] at hq
      cases hq)
    [candC2] candC2 "ABC.PA" qqC2 rfl (by decide) (by decide) (by decide)
    rfl (by decide)
  exact ⟨h.1.trans (by decide), h.2.trans (by decide)⟩

/-- Claim C3, counterexample to the claim as stated: the `classic`/`nearest`
policy is JavaScript `Math.round`, which rounds half toward positive infinity,
so `round(-2.5, nearest)` is `-2`, not the `-3` that half-away-from-zero
rounding would give. -/
theorem c3_rounding_counterexample :
    roundQuantity (-5 / 2) .classic = -2 ∧ (-2 : ℤ) ≠ -3 := by
  constructor
  · show (⌊(-5 / 2 : ℚ) + 1 / 2⌋ : ℤ) = -2
    rw [Int.floor_eq_iff]
    norm_num
  · decide

/-- Claim C3 as amended: `up` is the ceiling, `down` is the floor, and
`nearest`/`classic` is `⌊v + 1/2⌋`, i.e. round-half-up (ties toward positive
infinity, Mathlib's `round`); in particular `round(2.4, up) = 3`,
`round(2.4, down) = 2`, `round(2.5, nearest) = 3`, and
`round(-2.5, nearest) = -2` (not `-3`). -/
theorem c3_rounding_semantics (v : ℚ) :
    roundQuantity v .up = ⌈v⌉ ∧ roundQuantity v .down = ⌊v⌋ ∧
    roundQuantity v .classic = round v ∧
    roundQuantity (12 / 5) .up = 3 ∧ roundQuantity (12 / 5) .down = 2 ∧
    roundQuantity (5 / 2) .classic = 3 ∧ roundQuantity (-5 / 2) .classic = -2 := by
  refine ⟨rfl, rfl, ?_, ?_, ?_, ?_, ?_⟩
  · rw [round_eq]
    rfl
  · show (⌈(12 / 5 : ℚ)⌉ : ℤ) = 3
    rw [Int.ceil_eq_iff]
    norm_num
  · show (⌊(12 / 5 : ℚ)⌋ : ℤ) = 2
    rw [Int.floor_eq_iff]
    norm_num
  · show (⌊(5 / 2 : ℚ) + 1 / 2⌋ : ℤ) = 3
    rw [Int.floor_eq_iff]
    norm_num
  · show (⌊(-5 / 2 : ℚ) + 1 / 2⌋ : ℤ) = -2
    rw [Int.floor_eq_iff]
    norm_num

/-- Claim C4: the metrics engine's total is the sum of the defined
`currentAmount`s (absent ones contributing 0), and each output holding's
`allocationPercentage` is absent when its own `currentAmount` is absent,
`amount / total * 100` when the total is positive, and 0 otherwise. -/
theorem c4_allocation_rule (hs : List PortfolioHolding) (n : Option ℚ)
    (r : Option RoundingOption) :
    totalPortfolioValue hs = (hs.map (fun h => h.currentAmount.getD 0)).sum ∧
    (calculatePortfolioMetrics hs n r).map PortfolioHolding.allocationPercentage =
      hs.map (fun h =>
        match h.currentAmount with
        | none => none
        | some a =>
            if 0 < totalPortfolioValue hs then some (a / totalPortfolioValue hs * 100)
            else some 0) := by
  refine ⟨totalPortfolioValue_eq_sum hs, ?_⟩
  unfold calculatePortfolioMetrics
  rw [List.map_map]
  rfl

/-- Claim C5: per holding, a positive supplied investment total and a positive
target percentage yield `newInvestmentAllocation = total * target / 100`, and
additionally a positive price and a supplied rounding policy yield
`quantityToBuyFromNewInvestment = round(allocation / price, policy)`; in every
other case the respective field is absent. The second conjunct is the spec's
worked scenario: targets 50/50, prices 10/20, investment 100, policy `down`
give allocations 50/50 and quantities 5/2. -/
theorem c5_new_investment_rule (hs : List PortfolioHolding) (n : Option ℚ)
    (r : Option RoundingOption) :
    ((calculatePortfolioMetrics hs n r).map (fun h =>
        (h.newInvestmentAllocation, h.quantityToBuyFromNewInvestment)) =
      hs.map (fun h =>
        match n, h.targetAllocationPercentage with
        | some nit, some tap =>
            if 0 < nit ∧ 0 < tap then
              (some (nit * tap / 100),
                match h.currentPrice, r with
                | some price, some opt =>
                    if 0 < price then some (roundQuantity (nit * tap / 100 / price) opt)
                    else none
                | _, _ => none)
            else (none, none)
        | _, _ => (none, none))) ∧
    (calculatePortfolioMetrics scenarioHoldings (some 100) (some .down)).map (fun h =>
        (h.newInvestmentAllocation, h.quantityToBuyFromNewInvestment)) =
      [(some 50, some 5), (some 50, some 2)] := by
  constructor
  · unfold calculatePortfolioMetrics
    rw [List.map_map]
    exact List.map_congr_left (fun h _ => codeDerived_spec n r h)
  · norm_num [calculatePortfolioMetrics, computeHoldingMetrics, codeDerived,
      totalPortfolioValue, scenarioHoldings, blankHolding, roundQuantity]

/-- Claim C6: when every holding has a defined `currentAmount` and the total
portfolio value is positive, the output allocation percentages sum to exactly
100 over exact (rational) arithmetic. -/
theorem c6_allocation_sum_hundred (hs : List PortfolioHolding) (n : Option ℚ)
    (r : Option RoundingOption)
    (hall : ∀ h ∈ hs, h.currentAmount.isSome)
    (hpos : 0 < totalPortfolioValue hs) :
    ((calculatePortfolioMetrics hs n r).map
        (fun h => h.allocationPercentage.getD 0)).sum = 100 := by
  have hmap : (calculatePortfolioMetrics hs n r).map (fun h => h.allocationPercentage.getD 0)
      = hs.map (fun h => h.currentAmount.getD 0 / totalPortfolioValue hs * 100) := by
    unfold calculatePortfolioMetrics
    rw [List.map_map]
    refine List.map_congr_left ?_
    intro h hmem
    obtain ⟨a, ha⟩ := Option.isSome_iff_exists.mp (hall h hmem)
    simp [Function.comp, computeHoldingMetrics, ha, hpos]
  rw [hmap]
  have h2 : hs.map (fun h => h.currentAmount.getD 0 / totalPortfolioValue hs * 100)
      = (hs.map (fun h => h.currentAmount.getD 0)).map
          (fun a => a / totalPortfolioValue hs * 100) := by
    rw [List.map_map]
    rfl
  rw [h2]
  have h3 := sum_div_mul_holdings (totalPortfolioValue hs)
    (fun h => h.currentAmount.getD 0) hs
  rw [show ((hs.map (fun h => h.currentAmount.getD 0)).map
      (fun a => a / totalPortfolioValue hs * 100)).sum
      = (hs.map (fun h => h.currentAmount.getD 0 / totalPortfolioValue hs * 100)).sum
      from by rw [List.map_map]; rfl]
  rw [h3, ← totalPortfolioValue_eq_sum, div_self hpos.ne', one_mul]

/-- Claim C6 witness: two holdings with amounts 30 and 70 sum to allocation
percentages 30 and 70, total 100. -/
theorem c6_allocation_sum_witness :
    ((calculatePortfolioMetrics c6Holdings none none).map
        (fun h => h.allocationPercentage.getD 0)).sum = 100 :=
  c6_allocation_sum_hundred c6Holdings none none (by decide)
    (by norm_num [totalPortfolioValue, c6Holdings, blankHolding])

/-- Claim C7: the metrics engine is idempotent — running it again on its own
output with the same parameters reproduces that output field-for-field. In
this pure embedding the function is deterministic by construction, and the
source returns a fresh list of fresh objects (`map` plus object spread). -/
theorem c7_metrics_idempotent (hs : List PortfolioHolding) (n : Option ℚ)
    (r : Option RoundingOption) :
    calculatePortfolioMetrics (calculatePortfolioMetrics hs n r) n r =
      calculatePortfolioMetrics hs n r := by
  have ht := total_after_metrics hs n r
  show (calculatePortfolioMetrics hs n r).map
      (computeHoldingMetrics (totalPortfolioValue (calculatePortfolioMetrics hs n r)) n r) =
    calculatePortfolioMetrics hs n r
  rw [ht]
  show (hs.map (computeHoldingMetrics (totalPortfolioValue hs) n r)).map
      (computeHoldingMetrics (totalPortfolioValue hs) n r) =
    hs.map (computeHoldingMetrics (totalPortfolioValue hs) n r)
  rw [List.map_map]
  exact List.map_congr_left (fun h _ => rfl)

/-- Claim C8, counterexample to the claim as stated: on a single fresh holding
with `targetBuyAmount = 0` the total is 0, the guard `total > 0` fails, and
`targetAllocationPercentage` stays `undefined` — not the 0 the claim states. -/
theorem c8_target_allocation_counterexample :
    (applyTargetAllocations [blankHolding]).map
        PortfolioHolding.targetAllocationPercentage = [none] ∧
    (none : Option ℚ) ≠ some 0 := by
  constructor
  · norm_num [applyTargetAllocations, totalTargetBuyAmount, blankHolding]
  · decide

/-- Claim C8 as amended: at data-load time, when the total target buy amount
is positive every holding's `targetAllocationPercentage` is set to
`targetBuyAmount / total * 100`; when the total is not positive the holdings
are left untouched, so the field keeps its prior value (`undefined` for
freshly parsed rows), rather than being set to zero. -/
theorem c8_target_allocation_rule (hs : List PortfolioHolding) :
    (0 < totalTargetBuyAmount hs →
      (applyTargetAllocations hs).map PortfolioHolding.targetAllocationPercentage =
        hs.map (fun h => some (h.targetBuyAmount / totalTargetBuyAmount hs * 100))) ∧
    (¬ 0 < totalTargetBuyAmount hs → applyTargetAllocations hs = hs) := by
  constructor
  · intro hpos
    unfold applyTargetAllocations
    rw [if_pos hpos, List.map_map]
    rfl
  · intro hneg
    unfold applyTargetAllocations
    rw [if_neg hneg]

/-- Claim C8 witness: target buy amounts 60 and 40 yield target allocation
percentages via the positive-total branch. -/
theorem c8_target_allocation_witness :
    (applyTargetAllocations c8Holdings).map PortfolioHolding.targetAllocationPercentage =
      c8Holdings.map (fun h => some (h.targetBuyAmount / totalTargetBuyAmount c8Holdings * 100)) :=
  (c8_target_allocation_rule c8Holdings).1
    (by norm_num [totalTargetBuyAmount, c8Holdings, blankHolding])

/-- Claim C9: the first-variant resolver is a total function of the provider's
responses (throws are modelled as values and consumed by the embedding of the
`catch` blocks), and every result — accepted quote or final fallback — carries
the request's `id` and `isin`. -/
theorem c9_resolver_total_identity (env : Provider) (isin id : String)
    (pt : Option String) :
    (V1.getPriceForIsin env isin id pt).id = id ∧
    (V1.getPriceForIsin env isin id pt).isin = isin := by
  unfold V1.getPriceForIsin
  split
  · rename_i ret h
    exact v1_attempt0_error h
  · rename_i quote0 h0
    split
    · rename_i ret h
      exact v1_attempt1_error h
    · rename_i quote1 h1
      split
      · rename_i ret h
        exact v1_attempt2_error h
      · exact ⟨rfl, rfl⟩

/-- The fields `calculatePortfolioMetrics` must not touch: everything except
`allocationPercentage`, `newInvestmentAllocation` and
`quantityToBuyFromNewInvestment`. -/
def frameFields (h : PortfolioHolding) :=
  (h.id, h.isin, h.name, h.quantity, h.currentPrice, h.currentAmount, h.objective,
    h.type, h.potentialIncome, h.targetBuyAmount, h.buyPrice, h.qtyToBuy,
    h.actualGrosAmount, h.distributes, h.targetAllocationPercentage)

/-- Claim C10: the metrics engine preserves every field other than the three
derived ones, and returns a list of the same length in the same order. -/
theorem c10_frame_preservation (hs : List PortfolioHolding) (n : Option ℚ)
    (r : Option RoundingOption) :
    (calculatePortfolioMetrics hs n r).map frameFields = hs.map frameFields ∧
    (calculatePortfolioMetrics hs n r).length = hs.length := by
  constructor
  · unfold calculatePortfolioMetrics
    rw [List.map_map]
    rfl
  · unfold calculatePortfolioMetrics
    rw [List.length_map]

end InvestoTrack
